import Mathlib

/-!
# LearnNova — Adaptive Assessment & Spaced-Repetition Mastery Engine

Shallow embedding of the assessment core of `src/app.py`:

* `recordAnswerStep` / `recordQuizAnswer` — the `POST /api/quiz/answer`
  handler `record_quiz_answer` (validation chain, correctness, counters,
  score, streaks, scheduling, topic-difficulty decrement);
* `setConfidence` — the `POST /api/quiz/confidence` handler
  `set_quiz_confidence` (running confidence average, mastery update,
  topic-difficulty increase on correct answers);
* `cleanCandidate` — the candidate-normalization loop of
  `generate_quiz_with_gemini` (alias resolution, option padding,
  correct-index resolution);
* `normTokens` / `jaccard` / `acceptStep` / `acceptBatch` — the novelty
  filter inside `get_quiz`'s backfill;
* `getRoundRows` / `insertedOf` — the due-set assembly of `get_quiz`
  (`GET /api/quizzes/<id>`).

Numeric fields that are Python floats are modelled as `ℚ` (every constant
in the source — 0.2, 0.3, 0.5, 10-minute steps — is exactly representable;
binary floating-point rounding is outside the scope of the claims).
Timestamps are modelled as integer minutes (`Int`), matching the
`NOW() + (k || ' minutes')::interval` arithmetic of the source.
SQL `NULL` is modelled with `Option`.
-/

namespace LearnNova

/-- One row of `quiz_questions`.  `correctAnswer` models
`COALESCE(correct_answer, '')` (the code compares against
`correct_answer or ""`); counters model the `COALESCE(…, 0)` reads. -/
structure Question where
  questionNumber : Int
  question : String
  options : List String
  correctAnswer : String
  userAnswer : Option String
  isCorrect : Option Bool
  confidence : Option Int
  timesSeen : Nat
  timesCorrect : Nat
  correctStreak : Nat
  maxStreak : Nat
  interval : Int
  lastReviewed : Option Int
  nextReview : Option Int
  topic : Option String
  optionCounts : List Nat
  mastery : Option ℚ
  deriving Repr, DecidableEq

/-- One row of `quizzes` (the fields the engine touches).
`topicDifficulty` models the per-quiz `topic_difficulty` jsonb map as an
association list; `originalCount` models `COALESCE(original_count, 0)`. -/
structure Quiz where
  createdAt : Int
  score : Int
  originalCount : Int
  sourceSummary : String
  topicDifficulty : List (String × ℚ)
  deriving Repr, DecidableEq

/-- Python `str.strip()` / SQL `TRIM`: drop leading and trailing
whitespace (structurally recursive so that concrete instances reduce in
the kernel; the library `String.trim` walks byte positions by
well-founded recursion). -/
def strStrip (s : String) : String :=
  String.mk (((s.data.dropWhile Char.isWhitespace).reverse.dropWhile
    Char.isWhitespace).reverse)

/-- Python `str.lower()`. -/
def strLower (s : String) : String :=
  String.mk (s.data.map Char.toLower)

/-- Helper for `pySplitWs`: accumulate the current token (reversed). -/
def splitWsAux : List Char → List Char → List (List Char)
  | [], acc => if acc = [] then [] else [acc.reverse]
  | ch :: rest, acc =>
    if ch.isWhitespace then
      if acc = [] then splitWsAux rest []
      else acc.reverse :: splitWsAux rest []
    else splitWsAux rest (ch :: acc)

/-- Python `str.split()` with no argument: split on whitespace runs,
discarding empty pieces. -/
def pySplitWs (s : String) : List String :=
  (splitWsAux s.data []).map String.mk

/-- Digits of a decimal literal. -/
def digitsToNat : List Char → Option Nat
  | [] => none
  | l =>
    if l.all Char.isDigit then
      some (l.foldl (fun acc ch => acc * 10 + (ch.toNat - 48)) 0)
    else none

/-- Python `int(str)` on a trimmed string: optional sign then decimal
digits (`None` models the `ValueError` path). -/
def pyToInt (s : String) : Option Int :=
  match s.data with
  | '-' :: rest => (digitsToNat rest).map (fun n => -(n : Int))
  | '+' :: rest => (digitsToNat rest).map (fun n => (n : Int))
  | l => (digitsToNat l).map (fun n => (n : Int))

/-- Read a key from the jsonb map (`cur_map.get(k)`). -/
def tdGet (m : List (String × ℚ)) (k : String) : Option ℚ :=
  (m.find? (fun p => p.1 == k)).map (·.2)

/-- `topic_difficulty || jsonb_build_object(k, v)` — upsert of one key
(jsonb objects carry each key at most once, so replacing the first
occurrence models the merge). -/
def tdSet : List (String × ℚ) → String → ℚ → List (String × ℚ)
  | [], k, v => [(k, v)]
  | p :: rest, k, v => if p.1 == k then (k, v) :: rest else p :: tdSet rest k v

/-- Result of the stored part of `record_quiz_answer`. -/
structure AnswerResult where
  quiz : Quiz
  question : Question
  correct : Bool
  scoreIncremented : Bool
  deriving Repr, DecidableEq

/-- The database-mutating part of `record_quiz_answer`
(`src/app.py:2885-3013`), after validation and row lookup succeeded:
correctness, per-option selection counts, `times_seen`, the quiz `score`,
streak/scheduling bookkeeping and the incorrect-path topic-difficulty
decrement.  `now` is the SQL `NOW()` (stable within the transaction). -/
def recordAnswerStep (qz : Quiz) (q : Question) (ans : String)
    (conf : Option Int) (now : Int) : AnswerResult :=
  -- is_correct = (user_answer == (correct_answer or "")) if user_answer else False
  let isCorrect : Bool := if ans = "" then false else ans == q.correctAnswer
  -- conf_to_set: store -1 when incorrect and no confidence was supplied
  let confToSet : Option Int :=
    match conf with
    | some c => some c
    | none => if isCorrect then none else some (-1)
  let newConfidence : Option Int :=
    match confToSet with
    | some c => some c
    | none => q.confidence
  -- option_counts: normalize length, then increment the selected option
  let newCounts : List Nat :=
    if q.options = [] then q.optionCounts
    else
      match q.options.indexOf? ans with
      | some i =>
          let base := if q.optionCounts.length = q.options.length then
              q.optionCounts else List.replicate q.options.length 0
          base.set i (base.getD i 0 + 1)
      | none => q.optionCounts
  let scoreIncremented : Bool := isCorrect && !(q.isCorrect == some true)
  let newScore : Int := if scoreIncremented then qz.score + 1 else qz.score
  if isCorrect then
    let newStreak : Nat := q.correctStreak + 1
    let newMax : Nat := max newStreak q.maxStreak
    { quiz := { qz with score := newScore }
      question := { q with
        userAnswer := if ans = "" then none else some ans
        isCorrect := some true
        confidence := newConfidence
        optionCounts := newCounts
        timesSeen := q.timesSeen + 1
        timesCorrect := q.timesCorrect + 1
        correctStreak := newStreak
        maxStreak := newMax
        interval := 10 * (newStreak : Int)
        lastReviewed := some now
        nextReview := some (now + 10 * (newStreak : Int)) }
      correct := true
      scoreIncremented := scoreIncremented }
  else
    -- incorrect: reset streak; schedule only if never scheduled; decrement
    -- the per-quiz topic difficulty by 0.2 (missing key read as 0.0)
    let topicKey := strStrip (q.topic.getD "")
    let newTd :=
      if topicKey ≠ "" then
        tdSet qz.topicDifficulty topicKey
          ((tdGet qz.topicDifficulty topicKey).getD 0 - 1/5)
      else qz.topicDifficulty
    { quiz := { qz with score := newScore, topicDifficulty := newTd }
      question := { q with
        userAnswer := if ans = "" then none else some ans
        isCorrect := some false
        confidence := newConfidence
        optionCounts := newCounts
        timesSeen := q.timesSeen + 1
        correctStreak := 0
        interval := 1
        lastReviewed := some now
        nextReview := if q.nextReview = none then some now else q.nextReview }
      correct := false
      scoreIncremented := scoreIncremented }

/-- Python `min` on two rationals (kernel-reducible). -/
def qmin (a b : ℚ) : ℚ := if a ≤ b then a else b

/-- Python `max` on two rationals (kernel-reducible). -/
def qmax (a b : ℚ) : ℚ := if b ≤ a then a else b

/-- Python's `round` on the value: round half to even (banker's rounding),
so `int(round(2.5)) = 2`, `int(round(3.5)) = 4`. -/
def pyRound (x : ℚ) : Int :=
  let f := Int.fdiv x.num (x.den : Int)
  let frac := x - (f : ℚ)
  if frac < 1/2 then f
  else if 1/2 < frac then f + 1
  else if f % 2 = 0 then f else f + 1

/-- Clamp an integer confidence to `[0,5]` — the request parsing
`if ci < 0: ci = 0; if ci > 5: ci = 5` of both answer endpoints. -/
def clampConf (n : Int) : Int := if n < 0 then 0 else if n > 5 then 5 else n

/-- The running-average block of `set_quiz_confidence`
(`src/app.py:3097-3125`): `base_avg` is the stored confidence (or the
current sample when none is stored); for `times_seen > 1` the new average
is `max(0, ((ts-1)*base + eff)/ts)`, otherwise `max(0, eff)`. -/
def runningAvgConf (storedConf : Option Int) (timesSeen : Nat)
    (effectiveConf : Int) : ℚ :=
  let baseAvg : ℚ :=
    match storedConf with
    | some a => (a : ℚ)
    | none => (effectiveConf : ℚ)
  if 1 < timesSeen then
    qmax 0 ((((timesSeen : ℚ) - 1) * baseAvg + (effectiveConf : ℚ)) / (timesSeen : ℚ))
  else
    qmax 0 (effectiveConf : ℚ)

/-- Global `topics` table lookup
`SELECT average_difficulty FROM topics WHERE lower(title) = lower(k)`. -/
def topicsAvgGet (ts : List (String × ℚ)) (k : String) : Option ℚ :=
  (ts.find? (fun p => strLower p.1 == strLower k)).map (·.2)

/-- The effective topic difficulty used by `set_quiz_confidence`
(`src/app.py:3146-3175`): per-quiz map value (missing/empty key read as
0.0), falling back to the global topic average when that is exactly 0.0,
then replaced by 1.0 when still exactly 0.0, then capped at 5.0.
Note the cap is `min 5` only: a negative stored value passes through. -/
def topicDiffOf (qz : Quiz) (globalTopics : List (String × ℚ))
    (topicKey : String) : ℚ :=
  let d0 : ℚ :=
    if topicKey ≠ "" then
      let fromMap := (tdGet qz.topicDifficulty topicKey).getD 0
      if fromMap = 0 then (topicsAvgGet globalTopics topicKey).getD 0
      else fromMap
    else 0
  let d1 := if d0 = 0 then 1 else d0
  qmin 5 d1

/-- Result of `set_quiz_confidence`. -/
structure ConfidenceResult where
  quiz : Quiz
  question : Question
  mastery : ℚ
  deriving Repr, DecidableEq

/-- The stored part of `set_quiz_confidence` (`src/app.py:3015-3240`):
clamp the request confidence, require a recorded answer, fold the sample
into the running average (persisted rounded, used unrounded), recompute
mastery from streak ratio / normalized confidence / topic difficulty, and
on a correct answer raise the per-quiz topic difficulty by
`0.3 * confidenceNorm` capped at 5.  Returns `none` on the
`question has no recorded answer` 400 path.  (The global `topics` rollup
update on the correct path touches no claimed state and is not
modelled.) -/
def setConfidence (qz : Quiz) (globalTopics : List (String × ℚ))
    (q : Question) (rawConf : Option Int) : Option ConfidenceResult :=
  let confidence : Option Int := rawConf.map clampConf
  match q.isCorrect with
  | none => none
  | some isCorrect =>
    let effectiveConf : Int :=
      match confidence with
      | some c => c
      | none =>
        match q.confidence with
        | some s => s
        | none => 3
    let floatAvg0 := runningAvgConf q.confidence q.timesSeen effectiveConf
    let floatAvg := qmax 0 (qmin 5 floatAvg0)
    let avgConfInt := pyRound floatAvg
    let avgConfVal : ℚ := qmax 0 (qmin 1 (floatAvg / 5))
    let topicKey := strStrip (q.topic.getD "")
    let topicDiffVal := topicDiffOf qz globalTopics topicKey
    let masteryPrev : ℚ := q.mastery.getD 1
    let masteryVal : ℚ :=
      if 0 < q.maxStreak then
        qmin 5 (masteryPrev +
          (1/2 * ((q.correctStreak : ℚ) / (q.maxStreak : ℚ))
            + 3/10 * avgConfVal
            + 1/5 * topicDiffVal))
      else masteryPrev
    let newTd :=
      if isCorrect ∧ topicKey ≠ "" then
        tdSet qz.topicDifficulty topicKey (qmin 5 (topicDiffVal + 3/10 * avgConfVal))
      else qz.topicDifficulty
    some
      { quiz := { qz with topicDifficulty := newTd }
        question := { q with confidence := some avgConfInt, mastery := some masteryVal }
        mastery := masteryVal }

/-! ## Request validation of `record_quiz_answer` (`src/app.py:2822-2860`) -/

/-- The JSON body of `POST /api/quiz/answer` plus the session user.
`quizId`/`questionNumber` are `some n` exactly when the JSON field is an
integer (the code checks `isinstance(…, int)`); `questionId` is the raw
optional integer (the code tests its truthiness, so `0` counts as
absent); `userAnswer` is the raw optional string. -/
structure AnswerRequest where
  sessionUserId : Option Int
  quizId : Option Int
  questionId : Option Int
  questionNumber : Option Int
  userAnswer : Option String
  confidence : Option Int
  deriving Repr, DecidableEq

/-- An error reply `(HTTP status, error message)`. -/
structure ErrorResponse where
  status : Int
  error : String
  deriving Repr, DecidableEq

/-- Python truthiness of an optional integer (`None` and `0` are falsy). -/
def intTruthy : Option Int → Bool
  | none => false
  | some n => n != 0

/-- The validation chain of `record_quiz_answer` before any database
access: session, `quiz_id`, question reference, then `user_answer`.
Returns the first error, or `none` when the handler proceeds to storage. -/
def validateAnswerRequest (req : AnswerRequest) : Option ErrorResponse :=
  if ¬ intTruthy req.sessionUserId then some ⟨401, "unauthorized"⟩
  else if req.quizId = none then some ⟨400, "quiz_id required"⟩
  else if ¬ intTruthy req.questionId ∧ req.questionNumber = none then
    some ⟨400, "question_id or question_number required"⟩
  else if strStrip (req.userAnswer.getD "") = "" then
    some ⟨400, "user_answer required"⟩
  else none

/-- The `record_quiz_answer` handler over the state of the addressed
question: validation first (leaving the state untouched on failure),
then the stored update `recordAnswerStep`.  The not-found lookups for a
wrong `quiz_id`/question reference are outside this pure model — it
addresses a given existing row. -/
def recordQuizAnswer (req : AnswerRequest) (qz : Quiz) (q : Question)
    (now : Int) : (Quiz × Question) × Except ErrorResponse (Bool × Bool) :=
  match validateAnswerRequest req with
  | some e => ((qz, q), .error e)
  | none =>
    let r := recordAnswerStep qz q (strStrip (req.userAnswer.getD ""))
      (req.confidence.map clampConf) now
    ((r.quiz, r.question), .ok (r.correct, r.scoreIncremented))

/-! ## Candidate normalization (`generate_quiz_with_gemini`,
`src/app.py:740-800`) -/

/-- A cleaned candidate as emitted by `generate_quiz_with_gemini` and
consumed by `get_quiz`'s backfill. -/
structure Candidate where
  question : String
  options : List String
  correctIndex : Int
  topic : Option String
  deriving Repr, DecidableEq

/-- A loosely-typed correct-answer indicator: an integer index or a
string (letter, `option N`, or literal option text). -/
inductive AnsVal where
  | int (n : Int)
  | str (s : String)
  deriving Repr, DecidableEq

/-- `to_index_from_answer` (`src/app.py:612-634`): integer index checked
against the option count; letters `a`–`d` mapped unchecked; `option N`
parsed and bounds-checked (falling through to exact matching when the
number does not parse); otherwise exact string match against an option.
(Python `int(…)` tolerates surrounding whitespace, hence the `trim`.) -/
def toIndexFromAnswer : Option AnsVal → List String → Option Int
  | none, _ => none
  | some (.int n), options =>
    if 0 ≤ n ∧ n < (options.length : Int) then some n else none
  | some (.str s0), options =>
    let s := strStrip s0
    if s = "" then none
    else
      let low := strLower s
      if low = "a" then some 0
      else if low = "b" then some 1
      else if low = "c" then some 2
      else if low = "d" then some 3
      else if List.isPrefixOf "option ".data low.data then
        match pyToInt (strStrip (String.mk (low.data.drop 7))) with
        | some n =>
          if 0 ≤ n - 1 ∧ n - 1 < (options.length : Int) then some (n - 1) else none
        | none => (options.indexOf? s).map (fun i => (i : Int))
      else (options.indexOf? s).map (fun i => (i : Int))

/-- A raw generator candidate: each known alias field is `some` when the
JSON object carries it with the expected type. -/
structure RawCandidate where
  question : Option String
  prompt : Option String
  q : Option String
  options : Option (List String)
  choices : Option (List String)
  answers : Option (List String)
  correctIndex : Option Int
  answerIndex : Option Int
  answer : Option AnsVal
  correct : Option AnsVal
  correctOption : Option AnsVal
  topic : Option String
  deriving Repr, DecidableEq

/-- Python `a or b or … or ""` over optional strings (empty is falsy). -/
def firstStr : List (Option String) → String
  | [] => ""
  | none :: rest => firstStr rest
  | some s :: rest => if s = "" then firstStr rest else s

/-- Python `a or b or … or []` over optional lists (empty is falsy). -/
def firstList : List (Option (List String)) → List String
  | [] => []
  | none :: rest => firstList rest
  | some l :: rest => if l = [] then firstList rest else l

/-- `opts = q.get("options") or q.get("choices") or q.get("answers") or []`. -/
def resolveRawOptions (c : RawCandidate) : List String :=
  firstList [c.options, c.choices, c.answers]

/-- The list comprehension
`[str(o).strip() for o in opts if str(o).strip()]`. -/
def trimmedOptions (opts : List String) : List String :=
  (opts.map strStrip).filter (fun s => s ≠ "")

/-- The option-resolution block (`src/app.py:756-765`): trim, drop
empties; keep the first 4 when at least 4 remain; pad with the fixed
filler when exactly 3 remain; otherwise reject. -/
def normalizeOptions (opts : List String) : Option (List String) :=
  let options := trimmedOptions opts
  if 4 ≤ options.length then some (options.take 4)
  else if options.length = 3 then some (options ++ ["None of the above"])
  else none

/-- One iteration of the cleaning loop of `generate_quiz_with_gemini`
(`src/app.py:744-797`): question-alias resolution, option normalization,
the correct-index chain (`correctIndex` → `answerIndex` → `answer` →
`correct` → `correctOption` with the source's exact skip conditions),
and the final non-emptiness check.  The cosmetic `sanitize_katex`
rewriting applied to the emitted strings (regex repair of KaTeX markup,
identity on all plain strings in this development) is not modelled. -/
def cleanCandidate (c : RawCandidate) : Option Candidate :=
  let question := strStrip (firstStr [c.question, c.prompt, c.q])
  match normalizeOptions (resolveRawOptions c) with
  | none => none
  | some options =>
    let ci2 : Option Int :=
      match c.correctIndex with
      | some n => some n
      | none =>
        match c.answerIndex with
        | some n => some n
        | none => toIndexFromAnswer c.answer options
    let ci3 : Option Int :=
      match ci2 with
      | some n => some n
      | none => toIndexFromAnswer c.correct options
    let ci4 : Option Int :=
      match ci3 with
      | some n =>
        if 0 ≤ n ∧ n ≤ 3 then some n else toIndexFromAnswer c.correctOption options
      | none => toIndexFromAnswer c.correctOption options
    match ci4 with
    | none => none
    | some n =>
      if 0 ≤ n ∧ n ≤ 3 then
        if question = "" ∨ options.any (fun o => o = "") then none
        else some
          { question := question
            options := options
            correctIndex := n
            topic := c.topic.bind (fun s => if strStrip s = "" then none else some (strStrip s)) }
      else none

/-! ## Novelty filter (`get_quiz` backfill, `src/app.py:2448-2549`) -/

/-- The punctuation set deleted by `_norm_tokens`'s `str.translate`
table: `.,;:!?()[]\x7b\x7d<>"'|\/+-*=^_%$#@&` plus backtick, with the
quote, apostrophe, backtick, braces, backslash and caret written via
their code points. -/
def punctChars : List Char :=
  ['.', ',', ';', ':', '!', '?', '(', ')', '[', ']',
   Char.ofNat 123, Char.ofNat 125, '<', '>', Char.ofNat 34,
   Char.ofNat 39, Char.ofNat 96, '|', Char.ofNat 92, '/',
   '+', '-', '*', '=', Char.ofNat 94, '_', '%', '$', '#', '&',
   '@']

/-- Delete every punctuation character (`str.translate` with a deletion
table). -/
def stripPunct (s : String) : String :=
  String.mk (s.data.filter (fun ch => ¬ punctChars.contains ch))

/-- `_norm_tokens` (`src/app.py:2449-2453`): lowercase, strip
punctuation, split on whitespace, keep tokens longer than 2 characters,
as a set (duplicates erased). -/
def normTokens (txt : String) : List String :=
  ((pySplitWs (stripPunct (strLower txt))).filter
    (fun t => 2 < t.length)).eraseDups

/-- `len(a & b)` on token sets (the lists are duplicate-free). -/
def interCount (a b : List String) : Nat :=
  (a.filter (fun t => t ∈ b)).length

/-- `len(a | b)` on token sets. -/
def unionCount (a b : List String) : Nat :=
  ((a ++ b).eraseDups).length

/-- `jacc = len(toks & etoks) / (len(toks | etoks) or 1)`. -/
def jaccard (a b : List String) : ℚ :=
  let u := unionCount a b
  (interCount a b : ℚ) / ((if u = 0 then 1 else u : Nat) : ℚ)

/-- One candidate's accept/reject decision inside the backfill loop
(`src/app.py:2459-2497`): skip empty stems; reject case-insensitive
exact duplicates of existing stems; reject when the token-set Jaccard
similarity against any existing stem or any stem accepted earlier in
the batch reaches 0.5; otherwise accept, with the topic assignment the
loop computes (first listed topic occurring as a substring of the
lowercased stem, else round-robin over the topic list).  Returns the
candidate, that assignment, and the token set to add to the batch
pool. -/
def acceptStep (existingTexts : List String) (existingTok : List (List String))
    (topicList : List String) (accCount : Nat) (batchToks : List (List String))
    (qd : Candidate) : Option (Candidate × Option String × List String) :=
  if strStrip qd.question = "" then none
  else if strLower (strStrip qd.question) ∈ existingTexts then none
  else if ∃ e ∈ existingTok, 1/2 ≤ jaccard (normTokens (strStrip qd.question)) e then none
  else if ∃ b ∈ batchToks, 1/2 ≤ jaccard (normTokens (strStrip qd.question)) b then none
  else
    let tnorm := strLower (strStrip qd.question)
    let assigned : Option String :=
      match topicList.find? (fun t => (!(t == "")) && decide (List.IsInfix (strLower t).data tnorm.data)) with
      | some t => some t
      | none =>
        if topicList = [] then none
        else some (topicList.getD (accCount % topicList.length) "")
    some (qd, assigned, normTokens (strStrip qd.question))

/-- One generation batch folded through `acceptStep`, stopping once
`need` candidates are accepted (the loop's `break` fires after the
append). -/
def acceptBatch (ets : List String) (etoks : List (List String))
    (tl : List String) (need : Nat) :
    List Candidate → List (Candidate × Option String) × List (List String) →
    List (Candidate × Option String) × List (List String)
  | [], acc => acc
  | qd :: rest, acc =>
    match acceptStep ets etoks tl acc.1.length acc.2 qd with
    | none => acceptBatch ets etoks tl need rest acc
    | some (c, assigned, toks) =>
      let acc2 := (acc.1 ++ [(c, assigned)], acc.2 ++ [toks])
      if need ≤ acc2.1.length then acc2
      else acceptBatch ets etoks tl need rest acc2

/-- The full acceptance pipeline: the first generation call plus up to
two retries while still short (`attempts < 2`), each consuming the next
batch of generator output (`gen.getD i []` models a call that raised or
returned nothing). -/
def acceptAll (ets : List String) (etoks : List (List String))
    (tl : List String) (need : Nat) (gen : List (List Candidate)) :
    List (Candidate × Option String) × List (List String) :=
  let a0 := acceptBatch ets etoks tl need (gen.getD 0 []) ([], [])
  let a1 := if a0.1.length < need then acceptBatch ets etoks tl need (gen.getD 1 []) a0 else a0
  if a1.1.length < need then acceptBatch ets etoks tl need (gen.getD 2 []) a1 else a1

/-! ## Due-set assembly (`get_quiz`, `src/app.py:2295-2640`) -/

/-- Insert into a list sorted by the Bool comparator (stable). -/
def insertLe (le : α → α → Bool) (a : α) : List α → List α
  | [] => [a]
  | b :: bs => if le a b then a :: b :: bs else b :: insertLe le a bs

/-- Stable insertion sort by a Bool comparator. -/
def sortByLe (le : α → α → Bool) : List α → List α
  | [] => []
  | a :: as => insertLe le a (sortByLe le as)

/-- `ORDER BY next_review ASC, COALESCE(confidence, 999) ASC`. -/
def dueLe (a b : Question) : Bool :=
  if a.nextReview.getD 0 < b.nextReview.getD 0 then true
  else if a.nextReview.getD 0 = b.nextReview.getD 0 then
    decide (a.confidence.getD 999 ≤ b.confidence.getD 999)
  else false

/-- The due query: `next_review IS NOT NULL AND next_review <= NOW()`,
sorted by `(next_review, COALESCE(confidence, 999))`. -/
def dueRowsOf (questions : List Question) (now : Int) : List Question :=
  sortByLe dueLe (questions.filter (fun q =>
    match q.nextReview with
    | some t => decide (t ≤ now)
    | none => false))

/-- A question counts as answered when `user_answer` is non-NULL and
non-blank (`user_answer IS NULL OR TRIM(user_answer) = ''` counts it
unanswered). -/
def isAnswered (q : Question) : Bool :=
  match q.userAnswer with
  | some s => strStrip s != ""
  | none => false

/-- The effective round size: `COALESCE(original_count, 0)`, replaced by
the quiz's row count when not positive (`src/app.py:2334-2341`). -/
def effOrigCount (qz : Quiz) (questions : List Question) : Int :=
  if qz.originalCount ≤ 0 then (questions.length : Int) else qz.originalCount

/-- Completion (`src/app.py:2309-2343`): no unanswered questions, or the
fallback `score >= orig_count` for a positive effective count. -/
def completedOf (qz : Quiz) (questions : List Question) : Bool :=
  decide ((questions.filter (fun q => ¬ isAnswered q)).length = 0)
  || (decide (0 < effOrigCount qz questions)
      && decide (effOrigCount qz questions ≤ qz.score))

/-- Python `sorted` on strings: lexicographic by code point. -/
def strLe (a b : String) : Bool := !(decide (b < a))

/-- `SELECT … ORDER BY question_number ASC` over the quiz's questions. -/
def allQsSorted (questions : List Question) : List Question :=
  sortByLe (fun a b => decide (a.questionNumber ≤ b.questionNumber)) questions

/-- The `existing_texts` set: each stem stripped and lowercased
(membership is all that is used of it). -/
def existingTextsOf (allQs : List Question) : List String :=
  allQs.map (fun q => strLower (strStrip q.question))

/-- `existing_token_sets`: `_norm_tokens` of each raw stem. -/
def existingTokOf (allQs : List Question) : List (List String) :=
  allQs.map (fun q => normTokens q.question)

/-- `topic_list = sorted(existing_topics)`: stripped non-empty topic
labels, deduplicated, sorted. -/
def topicListOf (allQs : List Question) : List String :=
  sortByLe strLe
    ((((allQs.filterMap (fun q => q.topic)).filter (fun t => t ≠ "")).map
      strStrip).filter (fun t => t ≠ "")).eraseDups

/-- `due_rows[:orig_count] if orig_count > 0 and len(due_rows) > orig_count`. -/
def capTo (oc : Int) (rows : List Question) : List Question :=
  if 0 < oc ∧ oc < (rows.length : Int) then rows.take oc.toNat else rows

/-- Whether `get_quiz` enters the backfill block: practice mode
(completed), a positive effective count, a shortage of due rows, and a
non-blank source summary (`src/app.py:2369-2372`). -/
def backfillNeeded (qz : Quiz) (questions : List Question) (now : Int) : Bool :=
  completedOf qz questions
  && decide (0 < effOrigCount qz questions)
  && decide (((capTo (effOrigCount qz questions) (dueRowsOf questions now)).length : Int)
       < effOrigCount qz questions)
  && (strStrip qz.sourceSummary != "")

/-- The accepted backfill candidates with their (computed, in-memory)
topic assignments: the acceptance pipeline run against the quiz's
history, needing `orig_count - len(due_rows)` items.  Empty when the
backfill block is not entered. -/
def acceptedPairsOf (qz : Quiz) (questions : List Question) (now : Int)
    (gen : List (List Candidate)) : List (Candidate × Option String) :=
  if backfillNeeded qz questions now then
    let allQs := allQsSorted questions
    let need := (effOrigCount qz questions
      - ((capTo (effOrigCount qz questions) (dueRowsOf questions now)).length : Int)).toNat
    (acceptAll (existingTextsOf allQs) (existingTokOf allQs) (topicListOf allQs)
      need gen).1
  else []

/-- `SELECT COALESCE(MAX(question_number), 0)`. -/
def maxQuestionNumber (questions : List Question) : Int :=
  (questions.map (fun q => q.questionNumber)).foldr max 0

/-- The `INSERT INTO quiz_questions` loop over the accepted candidates
(`src/app.py:2550-2589`), `i` enumerating from 1: resolve
`correct_answer = options[correctIndex]` (skip the row otherwise or on
an empty stem), number it `max_num + i`, and persist with
`last_reviewed` and `next_review` set to the quiz's `created_at`.
Note the persisted `topic` is the candidate's own `topic` field
(`qd.get('topic')`); the computed assignment travelling alongside is
dropped. -/
def insertNew (createdAt : Int) (maxNum : Int) :
    Nat → List (Candidate × Option String) → List Question
  | _, [] => []
  | i, (c, _assigned) :: rest =>
    let restQ := insertNew createdAt maxNum (i + 1) rest
    let correctAnswer : Option String :=
      if 0 ≤ c.correctIndex ∧ c.correctIndex < (c.options.length : Int) then
        some (c.options.getD c.correctIndex.toNat "")
      else none
    match correctAnswer with
    | none => restQ
    | some ca =>
      if c.question = "" then restQ
      else
        { questionNumber := maxNum + (i : Int)
          question := c.question
          options := c.options
          correctAnswer := ca
          userAnswer := none
          isCorrect := none
          confidence := none
          timesSeen := 0
          timesCorrect := 0
          correctStreak := 0
          maxStreak := 0
          interval := 1
          lastReviewed := some createdAt
          nextReview := some createdAt
          topic := c.topic
          optionCounts := []
          mastery := none } :: restQ

/-- The rows persisted by the backfill on this round. -/
def insertedOf (qz : Quiz) (questions : List Question) (now : Int)
    (gen : List (List Candidate)) : List Question :=
  let accepted := acceptedPairsOf qz questions now gen
  if accepted = [] then []
  else insertNew qz.createdAt (maxQuestionNumber questions) 1 accepted

/-- The rows `get_quiz` selects before the final safety cap: in practice
mode the (re-queried, capped) due rows; while in progress the original
block `question_number <= original_count` in creation order
(`src/app.py:2604-2622`). -/
def roundRowsPre (qz : Quiz) (questions : List Question) (now : Int)
    (gen : List (List Candidate)) : List Question :=
  let oc := effOrigCount qz questions
  if completedOf qz questions then
    if acceptedPairsOf qz questions now gen ≠ [] then
      capTo oc (dueRowsOf (questions ++ insertedOf qz questions now gen) now)
    else capTo oc (dueRowsOf questions now)
  else
    sortByLe (fun a b => decide (a.questionNumber ≤ b.questionNumber))
      (questions.filter (fun q => decide (q.questionNumber ≤ qz.originalCount)))

/-- `if orig_count > 0 and rows: rows = rows[:orig_count]`. -/
def finalCap (oc : Int) (rows : List Question) : List Question :=
  if 0 < oc ∧ rows ≠ [] then rows.take oc.toNat else rows

/-- The question rows returned by `GET /api/quizzes/<id>`. -/
def getRoundRows (qz : Quiz) (questions : List Question) (now : Int)
    (gen : List (List Candidate)) : List Question :=
  finalCap (effOrigCount qz questions) (roundRowsPre qz questions now gen)

/-! ## Concrete fixtures -/

/-- A fresh `quiz_questions` row (all counters at their `COALESCE`
defaults) used to build concrete scenarios. -/
def baseQuestion : Question :=
  { questionNumber := 1
    question := "What is the alpha constant?"
    options := ["A", "B", "C", "D"]
    correctAnswer := "A"
    userAnswer := none
    isCorrect := none
    confidence := none
    timesSeen := 0
    timesCorrect := 0
    correctStreak := 0
    maxStreak := 0
    interval := 1
    lastReviewed := none
    nextReview := none
    topic := none
    optionCounts := [0, 0, 0, 0]
    mastery := none }

/-- A fresh quiz used to build concrete scenarios. -/
def baseQuiz : Quiz :=
  { createdAt := 0
    score := 0
    originalCount := 1
    sourceSummary := "the source"
    topicDifficulty := [] }

/-! ## C1 — score increments -/

/-- The C1 scenario: the same item answered correct, then incorrect,
then correct again. -/
def c1q : Question := { baseQuestion with topic := some "t" }

/-- First submission: the correct option text. -/
def c1r1 : AnswerResult := recordAnswerStep baseQuiz c1q "A" none 10

/-- Second submission: a wrong option. -/
def c1r2 : AnswerResult := recordAnswerStep c1r1.quiz c1r1.question "B" none 20

/-- Third submission: the correct option again. -/
def c1r3 : AnswerResult := recordAnswerStep c1r2.quiz c1r2.question "A" none 30

/-- C1 (counterexample): over the submission sequence correct, incorrect,
correct on one item, the owning quiz's score rises from 0 to 2 — the
incorrect submission stores `is_correct = false`, so the third submission
is again "newly correct" and re-increments, refuting "the score rises by
at most 1 for that item over any submission sequence". -/
theorem c1_score_rises_twice :
    baseQuiz.score = 0 ∧ c1r3.quiz.score = 2
      ∧ c1r1.scoreIncremented = true ∧ c1r3.scoreIncremented = true
      ∧ ¬ (c1r3.quiz.score - baseQuiz.score ≤ 1) := by
  decide

/-- C1 (amended): the score is incremented exactly on submissions whose
(nonempty) text matches the correct option while the item is not
currently marked correct.  Re-answering an item still marked correct
never re-increments, but an incorrect submission clears the mark, so a
correct–incorrect–correct sequence increments twice. -/
theorem c1_score_increment_iff (qz : Quiz) (q : Question) (ans : String)
    (conf : Option Int) (now : Int) :
    (recordAnswerStep qz q ans conf now).quiz.score =
      (if ans ≠ "" ∧ ans = q.correctAnswer ∧ q.isCorrect ≠ some true
        then qz.score + 1 else qz.score)
    ∧ ((recordAnswerStep qz q ans conf now).scoreIncremented = true ↔
        (ans ≠ "" ∧ ans = q.correctAnswer ∧ q.isCorrect ≠ some true)) := by
  by_cases h2 : ans = q.correctAnswer
  · subst h2
    by_cases h1 : q.correctAnswer = "" <;> by_cases h3 : q.isCorrect = some true <;>
      simp [recordAnswerStep, h1, h3]
  · by_cases h1 : ans = "" <;> by_cases h3 : q.isCorrect = some true <;>
      simp [recordAnswerStep, h1, h2, h3]

/-! ## C2 — round size bound -/

/-- The final safety cap keeps at most `oc` rows whenever `oc` is
positive. -/
theorem finalCap_length_le (oc : Int) (rows : List Question) (h : 0 < oc) :
    ((finalCap oc rows).length : Int) ≤ oc := by
  unfold finalCap
  split
  · rename_i hcond
    have h1 : (rows.take oc.toNat).length ≤ oc.toNat := by
      simp [List.length_take]
    calc ((rows.take oc.toNat).length : Int) ≤ (oc.toNat : Int) := by exact_mod_cast h1
      _ = oc := Int.toNat_of_nonneg h.le
  · rename_i hcond
    have hrows : rows = [] := by
      by_contra hne
      exact hcond ⟨h, hne⟩
    simp [hrows]
    exact h.le

/-- C2: for a quiz with a positive `original_count`, `get_quiz` returns
at most that many question rows, in progress or in practice mode, over
any sequence of generator outputs (hence any number of backfill
insertions). -/
theorem c2_round_size (qz : Quiz) (questions : List Question) (now : Int)
    (gen : List (List Candidate)) (h : 0 < qz.originalCount) :
    ((getRoundRows qz questions now gen).length : Int) ≤ qz.originalCount := by
  have heff : effOrigCount qz questions = qz.originalCount := by
    unfold effOrigCount
    rw [if_neg (by omega)]
  unfold getRoundRows
  rw [heff]
  exact finalCap_length_le _ _ h

/-- The C2 witness quiz: `original_count = 2`. -/
def c2qz : Quiz := { baseQuiz with originalCount := 2 }

/-- C2 (witness): the bound instantiated on a concrete quiz. -/
theorem c2_round_size_witness :
    0 < c2qz.originalCount
    ∧ ((getRoundRows c2qz [baseQuestion] 0 []).length : Int) ≤ c2qz.originalCount :=
  ⟨by decide, c2_round_size c2qz [baseQuestion] 0 [] (by decide)⟩

/-! ## C3 — streaks and scheduling -/

/-- C3: a correct answer raises the streak by one, takes the running
maximum of the streaks, stamps `last_reviewed = now` and schedules
`next_review = now + 10 minutes * newStreak`; an incorrect answer resets
the streak to 0 and schedules `next_review = now` only when the item was
never scheduled, keeping the stored `next_review` otherwise. -/
theorem c3_scheduler (qz : Quiz) (q : Question) (ans : String)
    (conf : Option Int) (now : Int) (h : ans ≠ "") :
    (ans = q.correctAnswer →
      (recordAnswerStep qz q ans conf now).question.correctStreak = q.correctStreak + 1
      ∧ (recordAnswerStep qz q ans conf now).question.maxStreak
          = max q.maxStreak (q.correctStreak + 1)
      ∧ (recordAnswerStep qz q ans conf now).question.lastReviewed = some now
      ∧ (recordAnswerStep qz q ans conf now).question.nextReview
          = some (now + 10 * ((q.correctStreak : Int) + 1)))
    ∧ (ans ≠ q.correctAnswer →
      (recordAnswerStep qz q ans conf now).question.correctStreak = 0
      ∧ (recordAnswerStep qz q ans conf now).question.maxStreak = q.maxStreak
      ∧ (recordAnswerStep qz q ans conf now).question.lastReviewed = some now
      ∧ (recordAnswerStep qz q ans conf now).question.nextReview
          = (if q.nextReview = none then some now else q.nextReview)) := by
  by_cases h2 : ans = q.correctAnswer
  · subst h2
    simp [recordAnswerStep, h, Nat.max_comm]
  · simp [recordAnswerStep, h, h2]

/-- The C3 witness item: streak 2, about to become 3. -/
def c3q : Question := { baseQuestion with correctStreak := 2, maxStreak := 2 }

/-- C3 (witness): answering `c3q` correctly at time 100 yields streak 3
and `next_review = 100 + 30` — thirty minutes after `last_reviewed`. -/
theorem c3_scheduler_witness :
    (recordAnswerStep baseQuiz c3q "A" none 100).question.correctStreak = c3q.correctStreak + 1
    ∧ (recordAnswerStep baseQuiz c3q "A" none 100).question.maxStreak
        = max c3q.maxStreak (c3q.correctStreak + 1)
    ∧ (recordAnswerStep baseQuiz c3q "A" none 100).question.lastReviewed = some 100
    ∧ (recordAnswerStep baseQuiz c3q "A" none 100).question.nextReview
        = some (100 + 10 * ((c3q.correctStreak : Int) + 1)) :=
  (c3_scheduler baseQuiz c3q "A" none 100 (by decide)).1 (by decide)

/-! ## C4 — mastery bound and monotonicity -/

/-- The C4 scenario item: carries a topic so the incorrect answer
decrements the per-quiz topic difficulty. -/
def c4q : Question := { baseQuestion with topic := some "t" }

/-- Correct answer first (establishes `max_streak = 1`). -/
def c4r1 : AnswerResult := recordAnswerStep baseQuiz c4q "A" none 10

/-- Then an incorrect answer: stores `confidence = -1` and writes
`topic_difficulty["t"] = 0.0 - 0.2 = -0.2`. -/
def c4r2 : AnswerResult := recordAnswerStep c4r1.quiz c4r1.question "B" none 20

/-- C4: with the stored topic difficulty negative (reachable by one
incorrect answer on a fresh topic), a confidence update computes a
negative mastery delta — the first confidence call stores mastery
24/25 and a second identical call lowers it to 23/25, so mastery is not
monotonically non-decreasing.  The code's own comment claims the
effective difficulty "stays in [1,5]", but only an exact 0.0 is replaced
by 1.0 and only the upper end is clamped. -/
theorem c4_mastery_decreases :
    (setConfidence c4r2.quiz [] c4r2.question (some 0)).map
        (fun r => r.question.mastery) = some (some (24/25))
    ∧ ((setConfidence c4r2.quiz [] c4r2.question (some 0)).bind
        (fun r1 => setConfidence r1.quiz [] r1.question (some 0))).map
          (fun r => r.question.mastery) = some (some (23/25))
    ∧ (23/25 : ℚ) < 24/25 := by
  with_unfolding_all decide

/-! ## C5 — topic difficulty decrement -/

/-- The C5 item: a freshly referenced topic, absent from the quiz's
`topic_difficulty` map. -/
def c5q : Question := { baseQuestion with topic := some "newtopic" }

/-- C5 (counterexample): the first incorrect answer for a freshly
referenced topic stores `0.0 - 0.2 = -0.2`, not `1.0 - 0.2 = 0.8` — the
incorrect path reads the map with default 0.0, not 1.0. -/
theorem c5_fresh_topic_stores_negative :
    tdGet baseQuiz.topicDifficulty "newtopic" = none
    ∧ tdGet (recordAnswerStep baseQuiz c5q "B" none 0).quiz.topicDifficulty "newtopic"
        = some (-(1/5))
    ∧ (some (-(1/5)) : Option ℚ) ≠ some (4/5) := by
  with_unfolding_all decide

/-- Looking up the key just set. -/
theorem tdGet_tdSet (m : List (String × ℚ)) (k : String) (v : ℚ) :
    tdGet (tdSet m k v) k = some v := by
  induction m with
  | nil => simp [tdSet, tdGet]
  | cons p rest ih =>
    by_cases h : p.1 = k
    · simp [tdSet, tdGet, h]
    · simp [tdSet, tdGet, h] at ih ⊢
      exact ih

/-- C5 (amended): on an incorrect answer for an item with a (trimmed)
non-empty topic label, the stored difficulty for that topic becomes
`current - 0.2` where a topic missing from the map is read as 0.0 (so a
freshly referenced topic stores -0.2); the default-1.0 initialization
exists only on the read path of the confidence/mastery endpoint, not
here. -/
theorem c5_difficulty_decrement (qz : Quiz) (q : Question) (ans : String)
    (conf : Option Int) (now : Int)
    (h1 : ans ≠ "") (h2 : ans ≠ q.correctAnswer)
    (h3 : strStrip (q.topic.getD "") ≠ "") :
    tdGet (recordAnswerStep qz q ans conf now).quiz.topicDifficulty
        (strStrip (q.topic.getD ""))
      = some ((tdGet qz.topicDifficulty (strStrip (q.topic.getD ""))).getD 0 - 1/5) := by
  have hc : (if ans = "" then false else ans == q.correctAnswer) = false := by
    simp [h1, h2]
  simp only [recordAnswerStep, hc, if_neg h3, Bool.false_eq_true, if_false]
  simp only [if_pos h3]
  exact tdGet_tdSet _ _ _

/-- C5 (witness): the amended decrement evaluated on a topic already at
difficulty 1/2 — the stored value becomes 3/10. -/
theorem c5_difficulty_decrement_witness :
    tdGet (recordAnswerStep { baseQuiz with topicDifficulty := [("t", 1/2)] }
        c4q "B" none 0).quiz.topicDifficulty "t"
      = some ((tdGet [("t", (1/2 : ℚ))] "t").getD 0 - 1/5) :=
  c5_difficulty_decrement { baseQuiz with topicDifficulty := [("t", 1/2)] }
    c4q "B" none 0 (by decide) (by decide) (by decide)

/-! ## C6 — persistence of backfill items -/

/-- The C6 history: one answered question on topic "alpha", scheduled in
the future so the practice round is short. -/
def c6q1 : Question :=
  { baseQuestion with
      userAnswer := some "A"
      isCorrect := some true
      topic := some "alpha"
      nextReview := some 100
      lastReviewed := some 90 }

/-- The C6 quiz: completed (score 1 of 1). -/
def c6qz : Quiz := { baseQuiz with score := 1 }

/-- A generator candidate sharing no token with the history and carrying
no topic label of its own. -/
def c6cand : Candidate :=
  { question := "Completely different words here"
    options := ["X", "Y", "Z", "W"]
    correctIndex := 1
    topic := none }

/-- C6: the backfill insert does set `next_review` (and `last_reviewed`)
to the quiz's creation time, and the acceptance loop does compute the
round-robin topic assignment (`some "alpha"` here, the stem containing no
listed topic), but the `INSERT` persists `qd.get('topic')` — the
generator's own field, `NULL` here — and drops the computed
`_assigned_topic`, which no other code reads. -/
theorem c6_backfill_topic_dropped :
    (insertedOf c6qz [c6q1] 0 [[c6cand]]).map
        (fun q => (q.nextReview, q.lastReviewed))
      = [(some c6qz.createdAt, some c6qz.createdAt)]
    ∧ (acceptedPairsOf c6qz [c6q1] 0 [[c6cand]]).map (fun p => p.2)
      = [some "alpha"]
    ∧ (insertedOf c6qz [c6q1] 0 [[c6cand]]).map (fun q => q.topic) = [none]
    ∧ ([none] : List (Option String)) ≠ [some "alpha"] := by
  with_unfolding_all decide

/-! ## C7 — novelty filter -/

/-- C7 (counterexample): the claim's second worked example puts the
Jaccard similarity of `{the,cat}` and `{the,quick,brown,fox}` at ≈0.14;
the actual value is `1/5 = 0.2` (intersection `{the}`, union of five
tokens), which is not within ±0.05 of 0.14. -/
theorem c7_jaccard_value_counterexample :
    jaccard (normTokens "the cat") (normTokens "the quick brown fox") = 1/5
    ∧ (14/100 : ℚ) + 5/100
        < jaccard (normTokens "the cat") (normTokens "the quick brown fox") := by
  with_unfolding_all decide

/-- C7 (amended): a candidate with a nonempty trimmed stem is rejected
exactly when its lowercased stem is a case-insensitive exact duplicate of
an existing stem (the pre-check runs against the quiz history only), or
its normalized token set has Jaccard similarity ≥ 0.5 with any existing
stem or any stem accepted earlier in the batch; the first worked example
has Jaccard 3/5 = 0.6 ≥ 0.5 (rejected), the second 1/5 = 0.2 < 0.5 (both
accepted). -/
theorem c7_dedup (ets : List String) (etoks : List (List String))
    (tl : List String) (n : Nat) (btoks : List (List String)) (qd : Candidate)
    (h : strStrip qd.question ≠ "") :
    (acceptStep ets etoks tl n btoks qd = none ↔
      strLower (strStrip qd.question) ∈ ets
      ∨ (∃ e ∈ etoks, 1/2 ≤ jaccard (normTokens (strStrip qd.question)) e)
      ∨ (∃ b ∈ btoks, 1/2 ≤ jaccard (normTokens (strStrip qd.question)) b))
    ∧ jaccard (normTokens "the quick brown fox") (normTokens "the quick brown dog") = 3/5
    ∧ ((1 : ℚ)/2 ≤ 3/5)
    ∧ jaccard (normTokens "the cat") (normTokens "the quick brown fox") = 1/5
    ∧ ¬ ((1 : ℚ)/2 ≤ 1/5) := by
  refine ⟨?_, ?_, ?_, ?_, ?_⟩
  · unfold acceptStep
    rw [if_neg h]
    split_ifs with h1 h2 h3
    · exact iff_of_true rfl (Or.inl h1)
    · exact iff_of_true rfl (Or.inr (Or.inl h2))
    · exact iff_of_true rfl (Or.inr (Or.inr h3))
    · refine iff_of_false (by simp) ?_
      rintro (hx | ⟨e, he, hj⟩ | ⟨b, hbm, hj⟩)
      exacts [h1 hx, h2 ⟨e, he, hj⟩, h3 ⟨b, hbm, hj⟩]
  · with_unfolding_all decide
  · with_unfolding_all decide
  · with_unfolding_all decide
  · with_unfolding_all decide

/-- The second stem of the claim's first worked example, as a
candidate. -/
def c7candDog : Candidate :=
  { question := "The quick brown dog?"
    options := ["A", "B", "C", "D"]
    correctIndex := 0
    topic := none }

/-- C7 (witness): against a history containing the fox stem, the dog
candidate is rejected — its token set meets the 0.5 threshold. -/
theorem c7_dedup_witness :
    acceptStep [] [normTokens "the quick brown fox"] [] 0 [] c7candDog = none := by
  have h := (c7_dedup [] [normTokens "the quick brown fox"] [] 0 [] c7candDog
    (by decide)).1
  exact h.mpr (Or.inr (Or.inl (by with_unfolding_all decide)))

/-! ## C8 — option normalization -/

/-- A resolved option list always has exactly 4 entries. -/
theorem normalizeOptions_length (opts l : List String)
    (h : normalizeOptions opts = some l) : l.length = 4 := by
  simp only [normalizeOptions] at h
  split_ifs at h with h1 h2
  · injection h with h
    subst h
    simp [List.length_take]
    omega
  · injection h with h
    subst h
    simp [h2]

/-- C8: after trimming and dropping empty options, at least 4 keeps the
first 4, exactly 3 appends the fixed filler, and fewer than 3 discards
the candidate (no item is emitted); every emitted item carries exactly
the (4-element) normalized option list; `["A","B","C"]` becomes
`["A","B","C","None of the above"]`. -/
theorem c8_option_normalization (c : RawCandidate) :
    (4 ≤ (trimmedOptions (resolveRawOptions c)).length →
      normalizeOptions (resolveRawOptions c)
        = some ((trimmedOptions (resolveRawOptions c)).take 4))
    ∧ ((trimmedOptions (resolveRawOptions c)).length = 3 →
      normalizeOptions (resolveRawOptions c)
        = some (trimmedOptions (resolveRawOptions c) ++ ["None of the above"]))
    ∧ ((trimmedOptions (resolveRawOptions c)).length < 3 → cleanCandidate c = none)
    ∧ (∀ it, cleanCandidate c = some it →
        normalizeOptions (resolveRawOptions c) = some it.options
        ∧ it.options.length = 4)
    ∧ normalizeOptions ["A", "B", "C"] = some ["A", "B", "C", "None of the above"] := by
  refine ⟨?_, ?_, ?_, ?_, by decide⟩
  · intro h
    simp [normalizeOptions, h]
  · intro h
    simp [normalizeOptions, h]
  · intro h
    have hn : normalizeOptions (resolveRawOptions c) = none := by
      simp only [normalizeOptions]
      rw [if_neg (by omega), if_neg (by omega)]
    simp [cleanCandidate, hn]
  · intro it hit
    cases hno : normalizeOptions (resolveRawOptions c) with
    | none =>
      simp only [cleanCandidate, hno] at hit
      exact absurd hit (by simp)
    | some opts =>
      simp only [cleanCandidate, hno] at hit
      split at hit
      · exact absurd hit (by simp)
      · split_ifs at hit with hrange hfinal
        have hopts : it.options = opts := by
          rw [← Option.some.inj hit]
        rw [hopts]
        exact ⟨rfl, normalizeOptions_length _ _ hno⟩

/-- The claim's rejection example: a candidate whose options resolve to
`["A","B"]`. -/
def c8exShort : RawCandidate :=
  { question := some "Q?"
    prompt := none
    q := none
    options := some ["A", "B"]
    choices := none
    answers := none
    correctIndex := some 0
    answerIndex := none
    answer := none
    correct := none
    correctOption := none
    topic := none }

/-- C8 (witness): the two worked examples — `["A","B"]` yields no item,
`["A","B","C"]` pads with the filler. -/
theorem c8_option_normalization_witness :
    cleanCandidate c8exShort = none
    ∧ normalizeOptions ["A", "B", "C"] = some ["A", "B", "C", "None of the above"] :=
  ⟨(c8_option_normalization c8exShort).2.2.1 (by decide),
   (c8_option_normalization c8exShort).2.2.2.2⟩

/-! ## C9 — running confidence average -/

/-- The running average exactly as the specification words it: given the
previously stored average `A` and new sample `c`,
`A' = max(0, ((ts-1)*A + c) / ts)` when `ts > 1`, and the current sample
`c` itself when `ts ≤ 1`. -/
def specRunningAvg (A : ℚ) (ts : Nat) (c : ℚ) : ℚ :=
  if 1 < ts then qmax 0 ((((ts : ℚ) - 1) * A + c) / (ts : ℚ)) else c

/-- A confidence already in `[0,5]` passes the request clamp unchanged. -/
theorem clampConf_eq_self (c : Int) (h0 : 0 ≤ c) (h5 : c ≤ 5) :
    clampConf c = c := by
  unfold clampConf
  rw [if_neg (by omega), if_neg (by omega)]

/-- With a stored average and a non-negative sample, the code's running
average coincides with the specification's formula (for `ts ≤ 1` the code
computes `max(0, c) = c`). -/
theorem runningAvgConf_eq_spec (A : Int) (ts : Nat) (c : Int) (hc : 0 ≤ c) :
    runningAvgConf (some A) ts c = specRunningAvg (A : ℚ) ts (c : ℚ) := by
  unfold runningAvgConf specRunningAvg
  split_ifs
  · rfl
  · unfold qmax
    split_ifs with h2
    · exact (le_antisymm h2 (by exact_mod_cast hc)).symm
    · rfl

/-- C9: when a confidence sample `c ∈ [0,5]` accompanies an answered item
with stored average `A` and seen-count `ts`, the stored confidence
becomes the spec's running average clamped to `[0,5]` and rounded
(`pyRound` is Python's `round`: a nearest integer, ties to even), while
the same update's mastery computation uses the clamped but unrounded
value as `confidenceNorm` (divided by 5 and clamped to `[0,1]`). -/
theorem c9_running_confidence (qz : Quiz) (gt : List (String × ℚ))
    (q : Question) (c A : Int) (b : Bool)
    (hc0 : 0 ≤ c) (hc5 : c ≤ 5) (hA : q.confidence = some A)
    (hb : q.isCorrect = some b) :
    (setConfidence qz gt q (some c)).map (fun r => r.question.confidence)
      = some (some (pyRound
          (qmax 0 (qmin 5 (specRunningAvg (A : ℚ) q.timesSeen (c : ℚ))))))
    ∧ (0 < q.maxStreak →
        (setConfidence qz gt q (some c)).map (fun r => r.question.mastery)
          = some (some (qmin 5 (q.mastery.getD 1 +
            (1/2 * ((q.correctStreak : ℚ) / (q.maxStreak : ℚ))
              + 3/10 * (qmax 0 (qmin 1
                  ((qmax 0 (qmin 5 (specRunningAvg (A : ℚ) q.timesSeen (c : ℚ)))) / 5)))
              + 1/5 * topicDiffOf qz gt (strStrip (q.topic.getD ""))))))) := by
  have hclamp : clampConf c = c := clampConf_eq_self c hc0 hc5
  have havg : runningAvgConf q.confidence q.timesSeen c
      = specRunningAvg (A : ℚ) q.timesSeen (c : ℚ) := by
    rw [hA]
    exact runningAvgConf_eq_spec A q.timesSeen c hc0
  constructor
  · simp only [setConfidence, hb, Option.map_some', hclamp, havg]
  · intro hms
    simp only [setConfidence, hb, Option.map_some', hclamp, havg, if_pos hms]

/-- The C9 witness item: stored average 2, seen twice, answered. -/
def c9q : Question :=
  { baseQuestion with
      confidence := some 2
      timesSeen := 2
      isCorrect := some true
      correctStreak := 1
      maxStreak := 1
      userAnswer := some "A" }

/-- C9 (witness): the characterization instantiated at sample 3 on
`c9q`. -/
theorem c9_running_confidence_witness :
    (setConfidence baseQuiz [] c9q (some 3)).map (fun r => r.question.confidence)
      = some (some (pyRound
          (qmax 0 (qmin 5 (specRunningAvg (2 : ℚ) c9q.timesSeen (3 : ℚ))))))
    ∧ (0 < c9q.maxStreak →
        (setConfidence baseQuiz [] c9q (some 3)).map (fun r => r.question.mastery)
          = some (some (qmin 5 (c9q.mastery.getD 1 +
            (1/2 * ((c9q.correctStreak : ℚ) / (c9q.maxStreak : ℚ))
              + 3/10 * (qmax 0 (qmin 1
                  ((qmax 0 (qmin 5 (specRunningAvg (2 : ℚ) c9q.timesSeen (3 : ℚ)))) / 5)))
              + 1/5 * topicDiffOf baseQuiz [] (strStrip (c9q.topic.getD ""))))))) :=
  c9_running_confidence baseQuiz [] c9q 3 2 true (by decide) (by decide)
    (by decide) (by decide)

/-! ## C10 — blank-answer validation -/

/-- The C10 counterexample request: authenticated, blank answer, but a
non-integer `quiz_id` — the earlier check fires first. -/
def c10req : AnswerRequest :=
  { sessionUserId := some 7
    quizId := none
    questionId := some 1
    questionNumber := none
    userAnswer := some "   "
    confidence := none }

/-- C10 (counterexample): a whitespace-only answer with a missing/non-
integer `quiz_id` is answered with `(400, "quiz_id required")`, not
`(400, "user_answer required")` — the quiz-id and question-reference
checks precede the answer check. -/
theorem c10_earlier_validation_wins :
    strStrip (c10req.userAnswer.getD "") = ""
    ∧ validateAnswerRequest c10req = some ⟨400, "quiz_id required"⟩
    ∧ (⟨400, "quiz_id required"⟩ : ErrorResponse) ≠ ⟨400, "user_answer required"⟩ := by
  decide

/-- Any blank-answer request fails validation (with one of the chain's
errors). -/
theorem validateAnswerRequest_blank (req : AnswerRequest)
    (h : strStrip (req.userAnswer.getD "") = "") :
    ∃ e, validateAnswerRequest req = some e := by
  unfold validateAnswerRequest
  split_ifs <;> exact ⟨_, rfl⟩

/-- C10 (amended): every submission whose answer text is missing or
whitespace-only fails validation before any storage access, leaving the
quiz and the question unchanged; the error is
`(400, "user_answer required")` exactly when the session is present, the
`quiz_id` is an integer and a question reference is given — otherwise an
earlier check in the chain reports its own 4xx first. -/
theorem c10_blank_answer_rejected (req : AnswerRequest) (qz : Quiz)
    (q : Question) (now : Int)
    (h : strStrip (req.userAnswer.getD "") = "") :
    (recordQuizAnswer req qz q now).1 = (qz, q)
    ∧ (∃ e, (recordQuizAnswer req qz q now).2 = .error e)
    ∧ (intTruthy req.sessionUserId = true → req.quizId ≠ none →
        (intTruthy req.questionId = true ∨ req.questionNumber ≠ none) →
        (recordQuizAnswer req qz q now).2
          = .error ⟨400, "user_answer required"⟩) := by
  obtain ⟨e, he⟩ := validateAnswerRequest_blank req h
  refine ⟨?_, ⟨e, ?_⟩, ?_⟩
  · simp only [recordQuizAnswer, he]
  · simp only [recordQuizAnswer, he]
  · intro hs hq href
    have hv : validateAnswerRequest req = some ⟨400, "user_answer required"⟩ := by
      unfold validateAnswerRequest
      rw [if_neg (by simp [hs]), if_neg (by simp [hq])]
      rw [if_neg (by rcases href with hid | hnum
                     · simp [hid]
                     · simp [hnum]), if_pos h]
    simp only [recordQuizAnswer, hv]

/-- The C10 witness request: everything present, answer blank. -/
def c10okReq : AnswerRequest :=
  { sessionUserId := some 7
    quizId := some 12
    questionId := none
    questionNumber := some 3
    userAnswer := some " "
    confidence := none }

/-- C10 (witness): the amended claim instantiated — state untouched and
the `user_answer required` error returned. -/
theorem c10_blank_answer_rejected_witness :
    (recordQuizAnswer c10okReq baseQuiz baseQuestion 0).1 = (baseQuiz, baseQuestion)
    ∧ (∃ e, (recordQuizAnswer c10okReq baseQuiz baseQuestion 0).2 = .error e)
    ∧ (intTruthy c10okReq.sessionUserId = true → c10okReq.quizId ≠ none →
        (intTruthy c10okReq.questionId = true ∨ c10okReq.questionNumber ≠ none) →
        (recordQuizAnswer c10okReq baseQuiz baseQuestion 0).2
          = .error ⟨400, "user_answer required"⟩) :=
  c10_blank_answer_rejected c10okReq baseQuiz baseQuestion 0 (by decide)

end LearnNova
